import Mathlib

/-!
Verification of the eco-resource-manager core domain model
(`src/models/resource.py` and `src/models/consumer.py`).

The Python code is shallowly embedded: Python `float` quantities are
modelled as exact rationals `ℚ`; Python strings (sequences of Unicode
code points) are modelled as `List Char`; `datetime.now()` is modelled
as a timestamp string supplied by the caller; object identity (Python
`in` on a list of objects without `__eq__`) is modelled by tagging each
resource object with a numeric identity.
-/

namespace EcoResource

/-- A Python string: a sequence of Unicode code points. -/
abbrev PyStr := List Char

/-- Coerce a Lean string literal to the Python-string model. -/
def str (s : String) : PyStr := s.data

/-- Python `s.startswith(pre)`. -/
def pyStartswith (s pre : PyStr) : Bool := pre.isPrefixOf s

/-- Python `round(q, 2)`: round to two decimal places, modelled on exact
rationals. -/
def round2 (q : ℚ) : ℚ := (round (q * 100) : ℚ) / 100

/-- Rendering of a Python number inside an f-string (`{amount}`),
modelled as the decimal rendering of the rational. -/
def numStr (q : ℚ) : PyStr := (toString q).data

/-- Rendering of a Python number with the `:.2f` format specifier,
modelled as the rendering of the value rounded to two decimals. -/
def fmt2 (q : ℚ) : PyStr := (toString (round2 q)).data

/-- One entry of `Resource._usage_log`
(`resource.py`, `update_availability`, lines 111-116). -/
structure LogEntry where
  resource : PyStr
  amount : ℚ
  remaining : ℚ
  timestamp : PyStr
deriving DecidableEq

/-- The `Resource` base class state (`resource.py`, lines 37-42). -/
structure Resource where
  name : PyStr
  total_available : ℚ
  initial_amount : ℚ
  renewable : Bool
  usage_log : List LogEntry
deriving DecidableEq

/-- `Resource.__init__` (`resource.py`, lines 37-42): stores the quantity
as both `_total_available` and `_initial_amount`, with an empty log.
No validation is performed on the quantity. -/
def Resource.make (name : PyStr) (total_available : ℚ) (renewable : Bool) : Resource :=
  { name := name
    total_available := total_available
    initial_amount := total_available
    renewable := renewable
    usage_log := [] }

/-- The message returned on `amount <= 0` (`resource.py`, line 103). -/
def invalidAmountMsg (amount : ℚ) : PyStr :=
  str "⚠ Invalid amount (" ++ numStr amount ++ str "). Must be positive."

/-- The message returned on `amount > total_available`
(`resource.py`, lines 105-108). -/
def insufficientMsg (name : PyStr) (amount avail : ℚ) : PyStr :=
  str "⚠ Insufficient " ++ name ++ str "! Requested " ++ numStr amount ++
    str ", but only " ++ fmt2 avail ++ str " available."

/-- The success message (`resource.py`, lines 117-120). -/
def successMsg (name : PyStr) (amount remaining : ℚ) : PyStr :=
  str "✔ " ++ numStr amount ++ str " units of " ++ name ++
    str " consumed. Remaining: " ++ fmt2 remaining

/-- `Resource.update_availability` (`resource.py`, lines 88-120): the sole
mutator. Returns the new object state paired with the message string the
Python method returns; `now` is the `datetime.now()` timestamp. -/
def Resource.update_availability (r : Resource) (amount : ℚ) (now : PyStr) :
    Resource × PyStr :=
  if amount ≤ 0 then
    (r, invalidAmountMsg amount)
  else if r.total_available < amount then
    (r, insufficientMsg r.name amount r.total_available)
  else
    let t := r.total_available - amount
    ({ r with
        total_available := t
        usage_log := r.usage_log ++
          [{ resource := r.name, amount := amount, remaining := round2 t,
             timestamp := now }] },
     successMsg r.name amount t)

/-- The dict returned by `Resource.report_usage`
(`resource.py`, lines 68-86). -/
structure UsageReport where
  name : PyStr
  total_available : ℚ
  consumed : ℚ
  renewable : Bool
  utilisation_pct : ℚ
deriving DecidableEq

/-- `Resource.report_usage` (`resource.py`, lines 68-86). -/
def Resource.report_usage (r : Resource) : UsageReport :=
  let consumed := r.initial_amount - r.total_available
  let utilisation := if 0 < r.initial_amount then consumed / r.initial_amount * 100 else 0
  { name := r.name
    total_available := round2 r.total_available
    consumed := round2 consumed
    renewable := r.renewable
    utilisation_pct := round2 utilisation }

/-- `WaterResource` (`resource.py`, lines 134-163): the base state plus
the `source` attribute. -/
structure WaterResource where
  toResource : Resource
  source : PyStr

/-- `WaterResource.__init__` (`resource.py`, lines 144-151). -/
def WaterResource.make (total_available : ℚ) (source : PyStr) (renewable : Bool) :
    WaterResource :=
  { toResource := Resource.make (str "Water") total_available renewable
    source := source }

/-- The dict returned by `WaterResource.report_usage`: the base report
extended with water-specific fields. -/
structure WaterReport extends UsageReport where
  unit : PyStr
  source : PyStr

/-- `WaterResource.report_usage` (`resource.py`, lines 158-163). -/
def WaterResource.report_usage (w : WaterResource) : WaterReport :=
  { toUsageReport := w.toResource.report_usage
    unit := str "litres"
    source := w.source }

/-- `EnergyResource` (`resource.py`, lines 169-198). -/
structure EnergyResource where
  toResource : Resource
  energy_type : PyStr

/-- `EnergyResource.__init__` (`resource.py`, lines 179-186). -/
def EnergyResource.make (total_available : ℚ) (energy_type : PyStr) (renewable : Bool) :
    EnergyResource :=
  { toResource := Resource.make (str "Electricity") total_available renewable
    energy_type := energy_type }

/-- The dict returned by `EnergyResource.report_usage`. -/
structure EnergyReport extends UsageReport where
  unit : PyStr
  energy_type : PyStr

/-- `EnergyResource.report_usage` (`resource.py`, lines 193-198). -/
def EnergyResource.report_usage (e : EnergyResource) : EnergyReport :=
  { toUsageReport := e.toResource.report_usage
    unit := str "kWh"
    energy_type := e.energy_type }

/-- `WasteResource` (`resource.py`, lines 204-238). -/
structure WasteResource where
  toResource : Resource
  waste_category : PyStr

/-- `WasteResource.__init__` (`resource.py`, lines 217-224). -/
def WasteResource.make (total_available : ℚ) (waste_category : PyStr) (renewable : Bool) :
    WasteResource :=
  { toResource := Resource.make (str "Waste") total_available renewable
    waste_category := waste_category }

/-- The dict returned by `WasteResource.report_usage`. -/
structure WasteReport extends UsageReport where
  unit : PyStr
  waste_category : PyStr
  label_consumed : PyStr

/-- `WasteResource.report_usage` (`resource.py`, lines 231-238). -/
def WasteResource.report_usage (x : WasteResource) : WasteReport :=
  { toUsageReport := x.toResource.report_usage
    unit := str "kg"
    waste_category := x.waste_category
    label_consumed := str "waste_deposited" }

/-- A reference to a `Resource` object: Python object identity is modelled
by the `id` tag, the heap cell content by `state`. -/
structure RRef where
  id : Nat
  state : Resource

/-- One entry of `Consumer._consumption_history`
(`consumer.py`, lines 109-114). -/
structure HistEntry where
  consumer : PyStr
  resource : PyStr
  amount : ℚ
  remaining : ℚ
deriving DecidableEq

/-- The `Consumer` class state (`consumer.py`, lines 36-45).
`assigned_resources` holds the identities of the assigned `Resource`
objects (Python list membership on objects without `__eq__` is identity). -/
structure Consumer where
  consumer_id : PyStr
  name : PyStr
  assigned_resources : List Nat
  consumption_history : List HistEntry

/-- The duplicate-warning message of `Consumer.assign_resource`
(`consumer.py`, line 79). -/
def alreadyAssignedMsg (rname cname : PyStr) : PyStr :=
  str "⚠ " ++ rname ++ str " is already assigned to " ++ cname ++ str "."

/-- The confirmation message of `Consumer.assign_resource`
(`consumer.py`, line 81). -/
def assignedMsg (rname cname : PyStr) : PyStr :=
  str "✔ " ++ rname ++ str " assigned to " ++ cname ++ str "."

/-- `Consumer.assign_resource` (`consumer.py`, lines 69-81). -/
def Consumer.assign_resource (c : Consumer) (r : RRef) : Consumer × PyStr :=
  if r.id ∈ c.assigned_resources then
    (c, alreadyAssignedMsg r.state.name c.name)
  else
    ({ c with assigned_resources := c.assigned_resources ++ [r.id] },
     assignedMsg r.state.name c.name)

/-- The not-assigned message of `Consumer.use_resource`
(`consumer.py`, lines 100-103). -/
def notAssignedMsg (rname cname : PyStr) : PyStr :=
  str "⚠ " ++ rname ++ str " is not assigned to " ++ cname ++
    str ". Please assign it first."

/-- The success test of `Consumer.use_resource` (`consumer.py`, line 108):
`result.startswith("✔")`. -/
def Consumer.logsSuccess (result : PyStr) : Bool := pyStartswith result (str "✔")

/-- `Consumer.use_resource` (`consumer.py`, lines 83-116): returns the
consumer's new state, the resource's new state, and the forwarded
message. -/
def Consumer.use_resource (c : Consumer) (r : RRef) (amount : ℚ) (now : PyStr) :
    Consumer × RRef × PyStr :=
  if r.id ∉ c.assigned_resources then
    (c, r, notAssignedMsg r.state.name c.name)
  else
    let res := r.state.update_availability amount now
    if Consumer.logsSuccess res.2 then
      ({ c with consumption_history := c.consumption_history ++
          [{ consumer := c.name, resource := res.1.name, amount := amount,
             remaining := res.1.total_available }] },
       { id := r.id, state := res.1 }, res.2)
    else
      (c, { id := r.id, state := res.1 }, res.2)

/-- An operation that touches a given resource: either a direct
`update_availability` call, or a `use_resource` call issued by some
consumer (the clock value `now` is part of the operation). -/
inductive ConsumeOp where
  | update (amount : ℚ) (now : PyStr)
  | use (c : Consumer) (amount : ℚ) (now : PyStr)

/-- Apply one operation to a resource, keeping only the resource's
resulting state. -/
def applyOp (r : RRef) : ConsumeOp → RRef
  | .update a now => { id := r.id, state := (r.state.update_availability a now).1 }
  | .use c a now => (c.use_resource r a now).2.1

/-- Run a sequence of operations on a resource. -/
def runOps (r : RRef) (ops : List ConsumeOp) : RRef := ops.foldl applyOp r

/-- The invariant of a resource constructed with initial quantity `q`. -/
def ResourceInv (r : Resource) (q : ℚ) : Prop :=
  0 ≤ r.total_available ∧ r.total_available ≤ r.initial_amount ∧ r.initial_amount = q

/-- The spec's scenario: a Water resource of 10000 litres from "River",
after one consumption of 1500, reported through the water-variant report. -/
def waterScenarioReport : WaterReport :=
  let w := WaterResource.make 10000 (str "River") true
  WaterResource.report_usage
    { w with toResource := (w.toResource.update_availability 1500 []).1 }

/-! ## Helper lemmas -/

theorem round2_intCast (n : ℤ) : round2 (n : ℚ) = n := by
  unfold round2
  rw [show ((n : ℚ) * 100) = ((n * 100 : ℤ) : ℚ) by push_cast; ring, round_intCast]
  push_cast
  field_simp

theorem successMsg_startswith (n : PyStr) (a t : ℚ) :
    pyStartswith (successMsg n a t) (str "✔") = true := rfl

theorem invalidAmountMsg_startswith (a : ℚ) :
    pyStartswith (invalidAmountMsg a) (str "✔") = false := rfl

theorem insufficientMsg_startswith (n : PyStr) (a v : ℚ) :
    pyStartswith (insufficientMsg n a v) (str "✔") = false := rfl

theorem logsSuccess_successMsg (n : PyStr) (a t : ℚ) :
    Consumer.logsSuccess (successMsg n a t) = true := rfl

theorem logsSuccess_invalidAmountMsg (a : ℚ) :
    Consumer.logsSuccess (invalidAmountMsg a) = false := rfl

theorem logsSuccess_insufficientMsg (n : PyStr) (a v : ℚ) :
    Consumer.logsSuccess (insufficientMsg n a v) = false := rfl

theorem update_availability_invalid (r : Resource) (a : ℚ) (now : PyStr)
    (h : a ≤ 0) :
    r.update_availability a now = (r, invalidAmountMsg a) := by
  unfold Resource.update_availability
  rw [if_pos h]

theorem update_availability_insufficient (r : Resource) (a : ℚ) (now : PyStr)
    (h1 : 0 < a) (h2 : r.total_available < a) :
    r.update_availability a now = (r, insufficientMsg r.name a r.total_available) := by
  unfold Resource.update_availability
  rw [if_neg (by linarith), if_pos h2]

theorem update_availability_success (r : Resource) (a : ℚ) (now : PyStr)
    (h1 : 0 < a) (h2 : a ≤ r.total_available) :
    r.update_availability a now =
      ({ r with
          total_available := r.total_available - a
          usage_log := r.usage_log ++
            [{ resource := r.name, amount := a,
               remaining := round2 (r.total_available - a), timestamp := now }] },
       successMsg r.name a (r.total_available - a)) := by
  unfold Resource.update_availability
  rw [if_neg (by linarith), if_neg (by linarith)]

theorem update_availability_bounds (r : Resource) (a : ℚ) (now : PyStr)
    (h0 : 0 ≤ r.total_available) (h1 : r.total_available ≤ r.initial_amount) :
    0 ≤ (r.update_availability a now).1.total_available ∧
      (r.update_availability a now).1.total_available
        ≤ (r.update_availability a now).1.initial_amount ∧
      (r.update_availability a now).1.initial_amount = r.initial_amount := by
  rcases le_or_lt a 0 with h | h
  · rw [update_availability_invalid r a now h]
    exact ⟨h0, h1, rfl⟩
  · rcases lt_or_le r.total_available a with h2 | h2
    · rw [update_availability_insufficient r a now h h2]
      exact ⟨h0, h1, rfl⟩
    · rw [update_availability_success r a now h h2]
      refine ⟨?_, ?_, rfl⟩
      · show 0 ≤ r.total_available - a
        linarith
      · show r.total_available - a ≤ r.initial_amount
        linarith

theorem use_resource_not_assigned (c : Consumer) (r : RRef) (a : ℚ) (now : PyStr)
    (h : r.id ∉ c.assigned_resources) :
    c.use_resource r a now = (c, r, notAssignedMsg r.state.name c.name) := by
  unfold Consumer.use_resource
  rw [if_pos h]

theorem use_resource_forwards (c : Consumer) (r : RRef) (a : ℚ) (now : PyStr)
    (h : r.id ∈ c.assigned_resources) :
    (c.use_resource r a now).2.1 = ⟨r.id, (r.state.update_availability a now).1⟩ ∧
      (c.use_resource r a now).2.2 = (r.state.update_availability a now).2 := by
  unfold Consumer.use_resource
  rw [if_neg (not_not_intro h)]
  dsimp only
  split <;> exact ⟨rfl, rfl⟩

theorem alreadyAssignedMsg_startswith (rn cn : PyStr) :
    pyStartswith (alreadyAssignedMsg rn cn) (str "✔") = false := rfl

theorem update_availability_name (r : Resource) (a : ℚ) (now : PyStr) :
    (r.update_availability a now).1.name = r.name := by
  unfold Resource.update_availability
  split
  · rfl
  · split
    · rfl
    · rfl

theorem update_availability_failure (r : Resource) (a : ℚ) (now : PyStr)
    (hf : a ≤ 0 ∨ r.total_available < a) :
    (r.update_availability a now).1 = r ∧
      Consumer.logsSuccess (r.update_availability a now).2 = false := by
  rcases le_or_lt a 0 with h0 | h0
  · rw [update_availability_invalid r a now h0]
    exact ⟨rfl, logsSuccess_invalidAmountMsg a⟩
  · rcases hf with h | h
    · exact absurd h0 (not_lt.2 h)
    · rw [update_availability_insufficient r a now h0 h]
      exact ⟨rfl, logsSuccess_insufficientMsg r.name a r.total_available⟩

theorem use_resource_history_of_logsSuccess (c : Consumer) (r : RRef) (a : ℚ)
    (now : PyStr) (h : r.id ∈ c.assigned_resources)
    (hs : Consumer.logsSuccess (r.state.update_availability a now).2 = true) :
    (c.use_resource r a now).1 =
      { c with consumption_history := c.consumption_history ++
          [{ consumer := c.name,
             resource := (r.state.update_availability a now).1.name,
             amount := a,
             remaining := (r.state.update_availability a now).1.total_available }] } := by
  unfold Consumer.use_resource
  rw [if_neg (not_not_intro h)]
  dsimp only
  rw [if_pos hs]

theorem use_resource_history_of_failure (c : Consumer) (r : RRef) (a : ℚ)
    (now : PyStr) (h : r.id ∈ c.assigned_resources)
    (hs : Consumer.logsSuccess (r.state.update_availability a now).2 = false) :
    (c.use_resource r a now).1 = c := by
  unfold Consumer.use_resource
  rw [if_neg (not_not_intro h)]
  dsimp only
  rw [if_neg (by simp [hs])]

theorem assign_resource_mem (c : Consumer) (r : RRef)
    (h : r.id ∈ c.assigned_resources) :
    c.assign_resource r = (c, alreadyAssignedMsg r.state.name c.name) := by
  unfold Consumer.assign_resource
  rw [if_pos h]

theorem assign_resource_not_mem (c : Consumer) (r : RRef)
    (h : r.id ∉ c.assigned_resources) :
    c.assign_resource r =
      ({ c with assigned_resources := c.assigned_resources ++ [r.id] },
       assignedMsg r.state.name c.name) := by
  unfold Consumer.assign_resource
  rw [if_neg h]

theorem applyOp_preserves (r : RRef) (op : ConsumeOp) (q : ℚ)
    (h : ResourceInv r.state q) : ResourceInv (applyOp r op).state q := by
  obtain ⟨h0, h1, h2⟩ := h
  cases op with
  | update a now =>
      obtain ⟨g0, g1, g2⟩ := update_availability_bounds r.state a now h0 h1
      exact ⟨g0, g1, g2.trans h2⟩
  | use c a now =>
      by_cases hm : r.id ∈ c.assigned_resources
      · have hfwd := (use_resource_forwards c r a now hm).1
        show ResourceInv (c.use_resource r a now).2.1.state q
        rw [hfwd]
        obtain ⟨g0, g1, g2⟩ := update_availability_bounds r.state a now h0 h1
        exact ⟨g0, g1, g2.trans h2⟩
      · show ResourceInv (c.use_resource r a now).2.1.state q
        rw [use_resource_not_assigned c r a now hm]
        exact ⟨h0, h1, h2⟩

theorem runOps_preserves (r : RRef) (ops : List ConsumeOp) (q : ℚ)
    (h : ResourceInv r.state q) : ResourceInv (runOps r ops).state q := by
  induction ops generalizing r with
  | nil => exact h
  | cons op ops ih => exact ih (applyOp r op) (applyOp_preserves r op q h)

/-! ## Claims -/

/-- C1: for every Resource constructed with a non-negative initial quantity
and every sequence of `update_availability` / `use_resource` calls on it,
`total_available` never goes negative and never exceeds the initial amount
(`0 ≤ total_available ≤ initial_amount` after every operation), so
`consumed = initial_amount - total_available` is always non-negative. -/
theorem claim1_consumption_invariant (nm : PyStr) (ren : Bool) (i : Nat)
    (q : ℚ) (hq : 0 ≤ q) (ops : List ConsumeOp) :
    0 ≤ (runOps ⟨i, Resource.make nm q ren⟩ ops).state.total_available ∧
      (runOps ⟨i, Resource.make nm q ren⟩ ops).state.total_available
        ≤ (runOps ⟨i, Resource.make nm q ren⟩ ops).state.initial_amount ∧
      (runOps ⟨i, Resource.make nm q ren⟩ ops).state.initial_amount = q ∧
      0 ≤ (runOps ⟨i, Resource.make nm q ren⟩ ops).state.initial_amount
          - (runOps ⟨i, Resource.make nm q ren⟩ ops).state.total_available := by
  obtain ⟨h0, h1, h2⟩ :=
    runOps_preserves ⟨i, Resource.make nm q ren⟩ ops q ⟨hq, le_refl q, rfl⟩
  exact ⟨h0, h1, h2, by linarith⟩

/-- Witness for C1 at a concrete resource and operation sequence. -/
theorem claim1_consumption_invariant_witness :
    0 ≤ (runOps ⟨0, Resource.make (str "Water") 10 true⟩
          [ConsumeOp.update 3 [], ConsumeOp.update 100 [],
           ConsumeOp.update (-2) []]).state.total_available ∧
      (runOps ⟨0, Resource.make (str "Water") 10 true⟩
          [ConsumeOp.update 3 [], ConsumeOp.update 100 [],
           ConsumeOp.update (-2) []]).state.total_available
        ≤ (runOps ⟨0, Resource.make (str "Water") 10 true⟩
          [ConsumeOp.update 3 [], ConsumeOp.update 100 [],
           ConsumeOp.update (-2) []]).state.initial_amount ∧
      (runOps ⟨0, Resource.make (str "Water") 10 true⟩
          [ConsumeOp.update 3 [], ConsumeOp.update 100 [],
           ConsumeOp.update (-2) []]).state.initial_amount = 10 ∧
      0 ≤ (runOps ⟨0, Resource.make (str "Water") 10 true⟩
          [ConsumeOp.update 3 [], ConsumeOp.update 100 [],
           ConsumeOp.update (-2) []]).state.initial_amount
          - (runOps ⟨0, Resource.make (str "Water") 10 true⟩
          [ConsumeOp.update 3 [], ConsumeOp.update 100 [],
           ConsumeOp.update (-2) []]).state.total_available :=
  claim1_consumption_invariant (str "Water") true 0 10 (by decide)
    [ConsumeOp.update 3 [], ConsumeOp.update 100 [], ConsumeOp.update (-2) []]

/-- C2: `update_availability` fails without mutation when `amount ≤ 0`
(invalid-amount message surfacing the offending amount) and when
`amount > total_available` (insufficient-quantity message surfacing both the
requested amount and the current availability); in every other case the call
succeeds, so these are the only failure conditions. -/
theorem claim2_update_failure_conditions (r : Resource) (a : ℚ) (now : PyStr) :
    (a ≤ 0 →
      r.update_availability a now = (r, invalidAmountMsg a) ∧
      ∃ p s, invalidAmountMsg a = p ++ numStr a ++ s) ∧
    (0 < a → r.total_available < a →
      r.update_availability a now = (r, insufficientMsg r.name a r.total_available) ∧
      ∃ p m s, insufficientMsg r.name a r.total_available
        = p ++ numStr a ++ m ++ fmt2 r.total_available ++ s) ∧
    (0 < a → a ≤ r.total_available →
      pyStartswith (r.update_availability a now).2 (str "✔") = true) := by
  refine ⟨fun h => ⟨update_availability_invalid r a now h, ⟨_, _, rfl⟩⟩,
    fun h1 h2 => ⟨update_availability_insufficient r a now h1 h2,
      str "⚠ Insufficient " ++ r.name ++ str "! Requested ", str ", but only ",
      str " available.", rfl⟩,
    fun h1 h2 => ?_⟩
  rw [update_availability_success r a now h1 h2]
  exact successMsg_startswith _ _ _

/-- Witness for C2: a zero amount fails without mutation, an oversized
amount fails without mutation, and an in-range amount succeeds. -/
theorem claim2_update_failure_conditions_witness :
    ((0 : ℚ) ≤ 0 ∧
      (Resource.make (str "Water") 10 true).update_availability 0 []
        = (Resource.make (str "Water") 10 true, invalidAmountMsg 0)) ∧
    ((0 : ℚ) < 20 ∧ (Resource.make (str "Water") 10 true).total_available < 20 ∧
      (Resource.make (str "Water") 10 true).update_availability 20 []
        = (Resource.make (str "Water") 10 true,
           insufficientMsg (str "Water") 20 10)) ∧
    ((0 : ℚ) < 4 ∧ (4 : ℚ) ≤ (Resource.make (str "Water") 10 true).total_available ∧
      pyStartswith
        ((Resource.make (str "Water") 10 true).update_availability 4 []).2
        (str "✔") = true) :=
  ⟨⟨le_refl 0,
    ((claim2_update_failure_conditions (Resource.make (str "Water") 10 true) 0 []).1
      (le_refl 0)).1⟩,
   ⟨by decide, by decide,
    ((claim2_update_failure_conditions (Resource.make (str "Water") 10 true) 20 []).2.1
      (by decide) (by decide)).1⟩,
   ⟨by decide, by decide,
    (claim2_update_failure_conditions (Resource.make (str "Water") 10 true) 4 []).2.2
      (by decide) (by decide)⟩⟩

/-- C3: for `0 < amount ≤ total_available`, `update_availability` succeeds:
`total_available` decreases by exactly `amount`, exactly one log entry
`{resource name, amount, remaining-after rounded to 2 dp, timestamp}` is
appended, and the returned message reports the amount consumed and the new
remaining quantity. -/
theorem claim3_update_success (r : Resource) (a : ℚ) (now : PyStr)
    (h1 : 0 < a) (h2 : a ≤ r.total_available) :
    (r.update_availability a now).1.total_available = r.total_available - a ∧
    (r.update_availability a now).1.usage_log =
      r.usage_log ++ [{ resource := r.name, amount := a,
                        remaining := round2 (r.total_available - a),
                        timestamp := now }] ∧
    (r.update_availability a now).2 = successMsg r.name a (r.total_available - a) ∧
    ∃ p m s, successMsg r.name a (r.total_available - a)
      = p ++ numStr a ++ m ++ fmt2 (r.total_available - a) ++ s := by
  rw [update_availability_success r a now h1 h2]
  exact ⟨rfl, rfl, rfl,
    str "✔ ", str " units of " ++ r.name ++ str " consumed. Remaining: ", [],
    by simp [successMsg, List.append_assoc]⟩

/-- Witness for C3 at a concrete resource and amount. -/
theorem claim3_update_success_witness :
    (0 : ℚ) < 4 ∧ (4 : ℚ) ≤ (Resource.make (str "Water") 10 true).total_available ∧
    ((Resource.make (str "Water") 10 true).update_availability 4 []).1.total_available
      = (Resource.make (str "Water") 10 true).total_available - 4 ∧
    ((Resource.make (str "Water") 10 true).update_availability 4 []).1.usage_log
      = (Resource.make (str "Water") 10 true).usage_log ++
        [{ resource := (Resource.make (str "Water") 10 true).name, amount := 4,
           remaining := round2 ((Resource.make (str "Water") 10 true).total_available - 4),
           timestamp := [] }] :=
  ⟨by decide, by decide,
   (claim3_update_success (Resource.make (str "Water") 10 true) 4 []
      (by decide) (by decide)).1,
   (claim3_update_success (Resource.make (str "Water") 10 true) 4 []
      (by decide) (by decide)).2.1⟩

/-- C9: consuming exactly the remaining quantity (`amount = total_available`
with `total_available > 0`) succeeds and leaves `total_available = 0`,
because only amounts strictly greater than `total_available` are rejected. -/
theorem claim9_exact_boundary (r : Resource) (now : PyStr)
    (h : 0 < r.total_available) :
    pyStartswith (r.update_availability r.total_available now).2 (str "✔") = true ∧
    (r.update_availability r.total_available now).1.total_available = 0 := by
  rw [update_availability_success r r.total_available now h (le_refl _)]
  refine ⟨successMsg_startswith _ _ _, ?_⟩
  show r.total_available - r.total_available = 0
  ring

/-- Witness for C9: draining a resource holding 7 units down to zero. -/
theorem claim9_exact_boundary_witness :
    (0 : ℚ) < (Resource.make (str "Water") 7 true).total_available ∧
    ((Resource.make (str "Water") 7 true).update_availability
      (Resource.make (str "Water") 7 true).total_available []).1.total_available = 0 :=
  ⟨by decide,
   (claim9_exact_boundary (Resource.make (str "Water") 7 true) [] (by decide)).2⟩

/-- C10: the `Resource` constructor performs no validation of its quantity
argument: for every quantity `q`, including negative ones, construction
succeeds with `total_available = initial_amount = q` and an empty log — in
particular a resource built with quantity `-5` starts with a negative
availability, so the spec's precondition `initialQuantity ≥ 0` is a caller
obligation, not a check the code enforces. -/
theorem claim10_constructor_no_validation :
    (∀ (n : PyStr) (q : ℚ) (b : Bool),
      (Resource.make n q b).total_available = q ∧
      (Resource.make n q b).initial_amount = q ∧
      (Resource.make n q b).usage_log = []) ∧
    (Resource.make (str "Water") (-5) true).total_available < 0 :=
  ⟨fun _ _ _ => ⟨rfl, rfl, rfl⟩, by decide⟩

/-- C4: every failed `use_resource` call leaves `total_available`, the
resource's usage-log length, and the consumer's consumption-history length
unchanged; when the resource is not assigned (by identity), `use_resource`
fails without invoking the resource at all, returning both objects
untouched. -/
theorem claim4_failure_noop (c : Consumer) (r : RRef) (a : ℚ) (now : PyStr) :
    (r.id ∉ c.assigned_resources →
      c.use_resource r a now = (c, r, notAssignedMsg r.state.name c.name)) ∧
    (a ≤ 0 ∨ r.state.total_available < a →
      (c.use_resource r a now).1.consumption_history.length
          = c.consumption_history.length ∧
        (c.use_resource r a now).2.1.state.total_available
          = r.state.total_available ∧
        (c.use_resource r a now).2.1.state.usage_log.length
          = r.state.usage_log.length) := by
  refine ⟨fun h => use_resource_not_assigned c r a now h, fun hf => ?_⟩
  by_cases hm : r.id ∈ c.assigned_resources
  · obtain ⟨hst, hmsg⟩ := update_availability_failure r.state a now hf
    rw [use_resource_history_of_failure c r a now hm hmsg,
      (use_resource_forwards c r a now hm).1, hst]
    exact ⟨rfl, rfl, rfl⟩
  · rw [use_resource_not_assigned c r a now hm]
    exact ⟨rfl, rfl, rfl⟩

/-- Witness for C4: an unassigned resource is untouched, and an invalid
amount on an assigned resource mutates nothing. -/
theorem claim4_failure_noop_witness :
    ((1 : Nat) ∉ [0] ∧
      (Consumer.mk (str "1") (str "Block A") [0] []).use_resource
          ⟨1, Resource.make (str "Water") 10 true⟩ 3 []
        = (Consumer.mk (str "1") (str "Block A") [0] [],
           ⟨1, Resource.make (str "Water") 10 true⟩,
           notAssignedMsg (str "Water") (str "Block A"))) ∧
    (((-3 : ℚ) ≤ 0 ∨ (Resource.make (str "Water") 10 true).total_available < -3) ∧
      ((Consumer.mk (str "1") (str "Block A") [0] []).use_resource
          ⟨0, Resource.make (str "Water") 10 true⟩ (-3) []).1.consumption_history.length
        = (Consumer.mk (str "1") (str "Block A") [0] []).consumption_history.length ∧
      ((Consumer.mk (str "1") (str "Block A") [0] []).use_resource
          ⟨0, Resource.make (str "Water") 10 true⟩ (-3) []).2.1.state.total_available
        = (Resource.make (str "Water") 10 true).total_available) :=
  ⟨⟨by decide,
    (claim4_failure_noop (Consumer.mk (str "1") (str "Block A") [0] [])
        ⟨1, Resource.make (str "Water") 10 true⟩ 3 []).1 (by decide)⟩,
   ⟨Or.inl (by decide),
    ((claim4_failure_noop (Consumer.mk (str "1") (str "Block A") [0] [])
        ⟨0, Resource.make (str "Water") 10 true⟩ (-3) []).2
      (Or.inl (by decide))).1,
    ((claim4_failure_noop (Consumer.mk (str "1") (str "Block A") [0] [])
        ⟨0, Resource.make (str "Water") 10 true⟩ (-3) []).2
      (Or.inl (by decide))).2.1⟩⟩

/-- C5: `assign_resource` is idempotent by identity — an already-assigned
resource yields the duplicate message without mutation, a new resource is
appended with the assigned message, and after two calls with the same
resource the assigned list holds exactly one entry for it while the second
call reports duplicate, not success. -/
theorem claim5_assign_idempotent (c : Consumer) (r : RRef) :
    (r.id ∈ c.assigned_resources →
      c.assign_resource r = (c, alreadyAssignedMsg r.state.name c.name)) ∧
    (r.id ∉ c.assigned_resources →
      (c.assign_resource r).1.assigned_resources = c.assigned_resources ++ [r.id] ∧
        (c.assign_resource r).2 = assignedMsg r.state.name c.name) ∧
    (r.id ∉ c.assigned_resources →
      ((c.assign_resource r).1.assign_resource r).1.assigned_resources.count r.id = 1 ∧
        ((c.assign_resource r).1.assign_resource r).2
          = alreadyAssignedMsg r.state.name c.name ∧
        pyStartswith ((c.assign_resource r).1.assign_resource r).2 (str "✔")
          = false) := by
  refine ⟨fun h => assign_resource_mem c r h, fun h => ?_, fun h => ?_⟩
  · rw [assign_resource_not_mem c r h]
    exact ⟨rfl, rfl⟩
  · rw [assign_resource_not_mem c r h]
    have hmem : r.id ∈ c.assigned_resources ++ [r.id] := by simp
    rw [assign_resource_mem _ r hmem]
    refine ⟨?_, rfl, alreadyAssignedMsg_startswith _ _⟩
    show (c.assigned_resources ++ [r.id]).count r.id = 1
    rw [List.count_append]
    simp [List.count_eq_zero.2 h]

/-- Witness for C5: assigning the same water resource twice to a fresh
consumer. -/
theorem claim5_assign_idempotent_witness :
    (0 : Nat) ∉ ([] : List Nat) ∧
    (((Consumer.mk (str "1") (str "Block A") [] []).assign_resource
        ⟨0, Resource.make (str "Water") 10 true⟩).1.assign_resource
        ⟨0, Resource.make (str "Water") 10 true⟩).1.assigned_resources.count 0 = 1 ∧
    (((Consumer.mk (str "1") (str "Block A") [] []).assign_resource
        ⟨0, Resource.make (str "Water") 10 true⟩).1.assign_resource
        ⟨0, Resource.make (str "Water") 10 true⟩).2
      = alreadyAssignedMsg (str "Water") (str "Block A") :=
  ⟨by decide,
   ((claim5_assign_idempotent (Consumer.mk (str "1") (str "Block A") [] [])
      ⟨0, Resource.make (str "Water") 10 true⟩).2.2 (by decide)).1,
   ((claim5_assign_idempotent (Consumer.mk (str "1") (str "Block A") [] [])
      ⟨0, Resource.make (str "Water") 10 true⟩).2.2 (by decide)).2.1⟩

/-- C7: on an assigned resource, `use_resource` returns the exact message
produced by `update_availability` without altering or suppressing it, and
appends `{consumer name, resource name, amount, remaining = the resource's
total_available after the call}` to `consumption_history` iff that call
succeeded. -/
theorem claim7_use_forwards_exact (c : Consumer) (r : RRef) (a : ℚ)
    (now : PyStr) (h : r.id ∈ c.assigned_resources) :
    (c.use_resource r a now).2.2 = (r.state.update_availability a now).2 ∧
    (0 < a → a ≤ r.state.total_available →
      (c.use_resource r a now).1.consumption_history
        = c.consumption_history ++
          [{ consumer := c.name, resource := r.state.name, amount := a,
             remaining := (r.state.update_availability a now).1.total_available }]) ∧
    (a ≤ 0 ∨ r.state.total_available < a →
      (c.use_resource r a now).1.consumption_history = c.consumption_history) := by
  refine ⟨(use_resource_forwards c r a now h).2, fun h1 h2 => ?_, fun hf => ?_⟩
  · have hs : Consumer.logsSuccess (r.state.update_availability a now).2 = true := by
      rw [update_availability_success r.state a now h1 h2]
      exact logsSuccess_successMsg r.state.name a (r.state.total_available - a)
    rw [use_resource_history_of_logsSuccess c r a now h hs,
      update_availability_name r.state a now]
  · rw [use_resource_history_of_failure c r a now h
      (update_availability_failure r.state a now hf).2]

/-- Witness for C7: a successful consumption by an assigned consumer is
forwarded verbatim and logged in the history. -/
theorem claim7_use_forwards_exact_witness :
    (0 : Nat) ∈ [0] ∧ (0 : ℚ) < 4 ∧
    (4 : ℚ) ≤ (Resource.make (str "Water") 10 true).total_available ∧
    ((Consumer.mk (str "1") (str "Block A") [0] []).use_resource
        ⟨0, Resource.make (str "Water") 10 true⟩ 4 []).2.2
      = ((Resource.make (str "Water") 10 true).update_availability 4 []).2 ∧
    ((Consumer.mk (str "1") (str "Block A") [0] []).use_resource
        ⟨0, Resource.make (str "Water") 10 true⟩ 4 []).1.consumption_history
      = [] ++ [{ consumer := str "Block A", resource := str "Water", amount := 4,
                 remaining := ((Resource.make (str "Water") 10 true).update_availability
                   4 []).1.total_available }] :=
  ⟨by decide, by decide, by decide,
   (claim7_use_forwards_exact (Consumer.mk (str "1") (str "Block A") [0] [])
      ⟨0, Resource.make (str "Water") 10 true⟩ 4 [] (by decide)).1,
   (claim7_use_forwards_exact (Consumer.mk (str "1") (str "Block A") [0] [])
      ⟨0, Resource.make (str "Water") 10 true⟩ 4 [] (by decide)).2.1
     (by decide) (by decide)⟩

/-- C8 counterexample: in the code, success and failure are NOT carried by
a tagged result — `update_availability` returns a bare message string and
the Consumer's branch (`result.startswith("✔")`, `consumer.py` line 108)
is decided purely by the string's leading glyph: any string starting with
"✔" is treated as success, any other string — even one announcing success
in words — as failure. -/
theorem claim8_counterexample :
    Consumer.logsSuccess (str "✔ arbitrary text, not a real outcome") = true ∧
    Consumer.logsSuccess (str "⚠ arbitrary text, not a real outcome") = false ∧
    Consumer.logsSuccess (str "success reported without the glyph") = false :=
  ⟨rfl, rfl, rfl⟩

/-- C8 (amended): success and failure of `update_availability` are
distinguished by a leading glyph on the returned message string — the
message starts with "✔" exactly when the call succeeded
(`0 < amount ≤ total_available`) — and the Consumer branches on
`result.startswith("✔")`: an assigned consumer's history grows by one
entry exactly when that prefix test passes. -/
theorem claim8_glyph_discriminant (r : Resource) (a : ℚ) (now : PyStr) :
    (pyStartswith (r.update_availability a now).2 (str "✔") = true
      ↔ 0 < a ∧ a ≤ r.total_available) ∧
    (∀ (c : Consumer) (i : Nat), i ∈ c.assigned_resources →
      (c.use_resource ⟨i, r⟩ a now).1.consumption_history.length
        = c.consumption_history.length
          + (if Consumer.logsSuccess (r.update_availability a now).2 then 1 else 0)) := by
  constructor
  · constructor
    · intro hp
      by_contra hn
      have hf : a ≤ 0 ∨ r.total_available < a := by
        rcases le_or_lt a 0 with h0 | h0
        · exact Or.inl h0
        · rcases le_or_lt a r.total_available with h2 | h2
          · exact absurd ⟨h0, h2⟩ hn
          · exact Or.inr h2
      have := (update_availability_failure r a now hf).2
      rw [Consumer.logsSuccess] at this
      rw [this] at hp
      exact Bool.false_ne_true hp
    · rintro ⟨h1, h2⟩
      rw [update_availability_success r a now h1 h2]
      exact successMsg_startswith r.name a (r.total_available - a)
  · intro c i hm
    by_cases hs : Consumer.logsSuccess (r.update_availability a now).2 = true
    · rw [use_resource_history_of_logsSuccess c ⟨i, r⟩ a now hm hs, if_pos hs]
      simp
    · have hs' : Consumer.logsSuccess (r.update_availability a now).2 = false :=
        Bool.eq_false_iff.2 hs
      rw [use_resource_history_of_failure c ⟨i, r⟩ a now hm hs', if_neg hs]
      simp

/-- Witness for C8 (amended) at a concrete resource, amount and consumer. -/
theorem claim8_glyph_discriminant_witness :
    (pyStartswith ((Resource.make (str "Water") 10 true).update_availability 4 []).2
        (str "✔") = true
      ↔ (0 : ℚ) < 4 ∧ (4 : ℚ) ≤ (Resource.make (str "Water") 10 true).total_available) ∧
    ((0 : Nat) ∈ [0] ∧
      ((Consumer.mk (str "1") (str "Block A") [0] []).use_resource
          ⟨0, Resource.make (str "Water") 10 true⟩ 4 []).1.consumption_history.length
        = (Consumer.mk (str "1") (str "Block A") [0] []).consumption_history.length
          + (if Consumer.logsSuccess
                ((Resource.make (str "Water") 10 true).update_availability 4 []).2
             then 1 else 0)) :=
  ⟨(claim8_glyph_discriminant (Resource.make (str "Water") 10 true) 4 []).1,
   by decide,
   (claim8_glyph_discriminant (Resource.make (str "Water") 10 true) 4 []).2
     (Consumer.mk (str "1") (str "Block A") [0] []) 0 (by decide)⟩

/-- C6: `report_usage` reports `consumed = initial_amount - total_available`
and `utilisation_pct = round(consumed / initial_amount * 100, 2)` when
`initial_amount > 0` and `0.0` otherwise, with `total_available` and
`consumed` rounded to two decimals; each variant merges its extra fields
into the same base record (Water: unit "litres" and source; Electricity:
unit "kWh" and energy type; Waste: unit "kg", waste category and
`label_consumed = "waste_deposited"`). A Water resource with initial 10000
reports, after one successful consumption of 1500, remaining 8500,
consumed 1500, and utilisation 15.0. -/
theorem claim6_report_usage (r : Resource) (w : WaterResource)
    (e : EnergyResource) (x : WasteResource) :
    (r.report_usage.consumed = round2 (r.initial_amount - r.total_available) ∧
      r.report_usage.total_available = round2 r.total_available ∧
      r.report_usage.name = r.name ∧
      r.report_usage.renewable = r.renewable) ∧
    (0 < r.initial_amount →
      r.report_usage.utilisation_pct
        = round2 ((r.initial_amount - r.total_available) / r.initial_amount * 100)) ∧
    (r.initial_amount ≤ 0 → r.report_usage.utilisation_pct = 0) ∧
    (w.report_usage.toUsageReport = w.toResource.report_usage ∧
      w.report_usage.unit = str "litres" ∧
      w.report_usage.source = w.source) ∧
    (e.report_usage.toUsageReport = e.toResource.report_usage ∧
      e.report_usage.unit = str "kWh" ∧
      e.report_usage.energy_type = e.energy_type) ∧
    (x.report_usage.toUsageReport = x.toResource.report_usage ∧
      x.report_usage.unit = str "kg" ∧
      x.report_usage.waste_category = x.waste_category ∧
      x.report_usage.label_consumed = str "waste_deposited") ∧
    (waterScenarioReport.total_available = 8500 ∧
      waterScenarioReport.consumed = 1500 ∧
      waterScenarioReport.utilisation_pct = 15) := by
  have hupd := update_availability_success (Resource.make (str "Water") 10000 true)
    1500 [] (by decide) (by decide)
  have h8500 : round2 (8500 : ℚ) = 8500 := by
    have h := round2_intCast 8500
    push_cast at h
    exact h
  have h1500 : round2 (1500 : ℚ) = 1500 := by
    have h := round2_intCast 1500
    push_cast at h
    exact h
  have h15 : round2 (15 : ℚ) = 15 := by
    have h := round2_intCast 15
    push_cast at h
    exact h
  refine ⟨⟨rfl, rfl, rfl, rfl⟩, fun h => ?_, fun h => ?_,
    ⟨rfl, rfl, rfl⟩, ⟨rfl, rfl, rfl⟩, ⟨rfl, rfl, rfl, rfl⟩, ?_, ?_, ?_⟩
  · show round2 (if 0 < r.initial_amount then
        (r.initial_amount - r.total_available) / r.initial_amount * 100 else 0)
      = round2 ((r.initial_amount - r.total_available) / r.initial_amount * 100)
    rw [if_pos h]
  · show round2 (if 0 < r.initial_amount then
        (r.initial_amount - r.total_available) / r.initial_amount * 100 else 0) = 0
    rw [if_neg (not_lt.2 h)]
    simp [round2]
  · unfold waterScenarioReport
    dsimp only [WaterResource.make]
    rw [hupd]
    show round2 (10000 - 1500 : ℚ) = 8500
    rw [show (10000 - 1500 : ℚ) = 8500 by norm_num]
    exact h8500
  · unfold waterScenarioReport
    dsimp only [WaterResource.make]
    rw [hupd]
    show round2 (10000 - (10000 - 1500) : ℚ) = 1500
    rw [show (10000 - (10000 - 1500) : ℚ) = 1500 by norm_num]
    exact h1500
  · unfold waterScenarioReport
    dsimp only [WaterResource.make]
    rw [hupd]
    show round2 (if (0 : ℚ) < 10000 then
        (10000 - (10000 - 1500)) / 10000 * 100 else 0) = 15
    rw [if_pos (by norm_num : (0 : ℚ) < 10000),
      show ((10000 - (10000 - 1500)) / 10000 * 100 : ℚ) = 15 by norm_num]
    exact h15

/-- Witness for C6: the utilisation formula applies to a resource with a
positive initial amount. -/
theorem claim6_report_usage_witness :
    (0 : ℚ) < (Resource.make (str "Water") 10 true).initial_amount ∧
    (Resource.make (str "Water") 10 true).report_usage.utilisation_pct
      = round2 (((Resource.make (str "Water") 10 true).initial_amount
          - (Resource.make (str "Water") 10 true).total_available)
          / (Resource.make (str "Water") 10 true).initial_amount * 100) :=
  ⟨by decide,
   (claim6_report_usage (Resource.make (str "Water") 10 true)
      (WaterResource.make 10000 (str "River") true)
      (EnergyResource.make 5000 (str "Solar") true)
      (WasteResource.make 2000 (str "Recyclable") false)).2.1 (by decide)⟩

end EcoResource
